import Mathlib

/-!
Shallow embedding of the selection/correlation/integration core of the
Tometabolome frontend (src/frontend/src/App.tsx).  Numeric values are
modelled as rationals; the React `useState` fields become one record,
and each handler becomes a pure state-transition function whose network
outcome is an explicit parameter.
-/

attribute [local semireducible] Rat.add Rat.sub Rat.mul Rat.inv

/-- Scan summary row, mirroring `interface Scan` in App.tsx. -/
structure Scan where
  id : Int
  rt : Rat
  tic : Rat
  base_peak_mz : Rat
  base_peak_int : Rat
deriving DecidableEq

instance : Inhabited Scan := ⟨⟨0, 0, 0, 0, 0⟩⟩

/-- MS1 spectrum payload, mirroring `interface SpectrumResponse`. -/
structure SpectrumResponse where
  mzs : List Rat
  ints : List Rat
  rt : Rat
  has_ms2 : Option (List Rat)
deriving DecidableEq

/-- MS2 spectrum payload, mirroring `interface MS2Response`. -/
structure MS2Response where
  mzs : List Rat
  ints : List Rat
  rt : Rat
  precursor_mz : Rat
deriving DecidableEq

/-- An x/y pair of sample arrays, as stored in `ticData` / `chromData`. -/
structure ChromXY where
  x : List Rat
  y : List Rat
deriving DecidableEq

/-- The mutable view state of `App`, collecting the `useState` fields that the
claims talk about (fields irrelevant to the claims are omitted). -/
structure AppState where
  manualPath : String
  selectedFile : String
  ticData : Option ChromXY
  chromData : Option ChromXY
  spectrumData : Option SpectrumResponse
  loading : Bool
  error : Option String
  scanList : List Scan
  currentScanIdx : Int
  chromXRange : Option (Rat × Rat)
  msXRange : Option (Rat × Rat)
  ms2Data : Option MS2Response
  ms2XRange : Option (Rat × Rat)
  ms2Loading : Bool
deriving DecidableEq

/-- Outcome of a network fetch, as observed by a handler: either the decoded
response body, or a failure (rejected promise or non-2xx, both of which the
handlers catch with an error message). -/
inductive FetchOutcome (α : Type) where
  | success (data : α)
  | failure (msg : String)
deriving DecidableEq

/-- Absolute value on the rationals, written out as the conditional that
`Math.abs` computes, so that it evaluates by kernel reduction. -/
def ratAbs (x : Rat) : Rat := if x < 0 then -x else x

/-- Distance from scan `i` of `scans` to the target retention time `t`,
written with `getD` exactly as the code indexes `scanList[prev].rt`. -/
def scanDist (scans : List Scan) (t : Rat) (i : Nat) : Rat :=
  ratAbs ((scans.getD i default).rt - t)

/-- Closest-scan resolution, transcribing the `scanList.reduce` in
`fetchSpectrum` (App.tsx lines 292-296): left-to-right fold starting from
index 0, replacing the accumulator only on a strictly smaller distance. -/
def closestScanIdx (scans : List Scan) (t : Rat) : Nat :=
  (List.enumFrom 0 scans).foldl
    (fun prev p =>
      if ratAbs (p.2.rt - t) < scanDist scans t prev then p.1 else prev) 0

/-- MS1 spectrum fetch, transcribing `fetchSpectrum` (App.tsx lines 277-303).
On success the spectrum is stored, the MS2 data is cleared, the MS1 zoom
window `msXRange` is reset, and when the scan list is non-empty the closest
scan index is re-resolved against the returned retention time.  On failure
only the error banner is set and the loading flag cleared. -/
def fetchSpectrum (s : AppState) (outcome : FetchOutcome SpectrumResponse) :
    AppState :=
  if s.selectedFile = "" then s
  else
    match outcome with
    | .failure msg => { s with loading := false, error := some msg }
    | .success data =>
        let s1 := { s with spectrumData := some data, ms2Data := none,
                           msXRange := none }
        let s2 :=
          if s.scanList ≠ [] then
            { s1 with currentScanIdx := (closestScanIdx s.scanList data.rt : Int) }
          else s1
        { s2 with loading := false }

/-- Index-driven navigation, transcribing `updateSpectrumByIndex`
(App.tsx lines 305-312): bounds guard, then the index is set eagerly and the
spectrum fetch for that scan's retention time is issued. -/
def updateSpectrumByIndex (s : AppState) (idx : Int)
    (outcome : FetchOutcome SpectrumResponse) : AppState :=
  if idx < 0 ∨ (s.scanList.length : Int) ≤ idx then s
  else fetchSpectrum { s with currentScanIdx := idx } outcome

/-- Retention time passed to `fetchSpectrum` by `updateSpectrumByIndex`,
or `none` when the bounds guard rejects the index. -/
def updateSpectrumIssuedRt (scans : List Scan) (idx : Int) : Option Rat :=
  if idx < 0 ∨ (scans.length : Int) ≤ idx then none
  else some (scans.getD idx.toNat default).rt

/-- Arrow-key navigation target, transcribing the keydown handler
(App.tsx lines 57-81): `none` means the key press does not navigate. -/
def handleKeyDownNav (scanList : List Scan) (currentScanIdx : Int)
    (key : String) : Option Int :=
  if scanList = [] then none
  else if key = "ArrowRight" then
    let nextIdx : Int := min ((scanList.length : Int) - 1) (currentScanIdx + 1)
    if nextIdx ≠ currentScanIdx then some nextIdx else none
  else if key = "ArrowLeft" then
    let prevIdx : Int := max 0 (currentScanIdx - 1)
    if prevIdx ≠ currentScanIdx then some prevIdx else none
  else none

/-- Outcome of the MS2 fetch: success payload, a non-2xx response (the code
just returns), or a rejected promise (the code only logs it). -/
inductive Ms2Outcome where
  | success (data : MS2Response)
  | httpError
  | rejected (msg : String)
deriving DecidableEq

/-- MS2 fragment-spectrum fetch, transcribing `fetchMs2Spectrum`
(App.tsx lines 347-362).  Every failure path leaves the state untouched apart
from the MS2 loading flag; no error banner is ever set. -/
def fetchMs2Spectrum (s : AppState) (outcome : Ms2Outcome) : AppState :=
  if s.selectedFile = "" then s
  else
    match outcome with
    | .success d =>
        { s with ms2Data := some d, ms2XRange := none, ms2Loading := false }
    | .httpError => { s with ms2Loading := false }
    | .rejected _ => { s with ms2Loading := false }

/-- Stick-spectrum channels, mirroring the return value of `getStickData`;
`none` entries are the `null` path-break sentinels pushed by the code. -/
structure StickData where
  x : List (Option Rat)
  y : List (Option Rat)
  hx : List (Option Rat)
  hy : List (Option Rat)
deriving DecidableEq

/-- Highlight test used by `getStickData` (App.tsx line 93):
`highlightMzs.some(m => Math.abs(m - mz) < 0.1)`. -/
def isHighlighted (highlightMzs : List Rat) (mz : Rat) : Bool :=
  highlightMzs.any fun m => ratAbs (m - mz) < (1 : Rat)/10

/-- Stick-spectrum builder, transcribing `getStickData` (App.tsx lines
84-104): one pass over the aligned peak list, pushing
`(mz, mz, null)` / `(0, intensity, null)` onto the channel chosen by the
highlight test. -/
def getStickData (mzs ints : List Rat) (highlightMzs : List Rat) : StickData :=
  (mzs.zip ints).foldl
    (fun acc p =>
      if isHighlighted highlightMzs p.1 then
        { acc with hx := acc.hx ++ [some p.1, some p.1, none],
                   hy := acc.hy ++ [some 0, some p.2, none] }
      else
        { acc with x := acc.x ++ [some p.1, some p.1, none],
                   y := acc.y ++ [some 0, some p.2, none] })
    ⟨[], [], [], []⟩

/-- The x-channel triplet one peak contributes: `(mz, mz, break)`. -/
def stickTripX (p : Rat × Rat) : List (Option Rat) := [some p.1, some p.1, none]

/-- The y-channel triplet one peak contributes: `(0, intensity, break)`. -/
def stickTripY (p : Rat × Rat) : List (Option Rat) := [some 0, some p.2, none]

/-- Plotly selection event as consumed by `calculateIntegration`:
`range` is `event.range?.x` and `points` the x-coordinates of
`event.points` (`none` when the field is absent). -/
structure SelectEvent where
  range : Option (Rat × Rat)
  points : Option (List Rat)
deriving DecidableEq

/-- Derived x-range of a selection event (App.tsx line 246): the explicit box
range when present, else the min/max of the clicked points' x-coordinates,
else nothing. -/
def derivedRangeX (ev : SelectEvent) : Option (Rat × Rat) :=
  match ev.range with
  | some r => some r
  | none =>
      match ev.points with
      | some (p :: ps) => some (ps.foldl min p, ps.foldl max p)
      | _ => none

/-- Qualifying chromatogram samples for an integration event (App.tsx lines
248-257): samples whose time in minutes lies in the derived range, returned
as the (minutes, intensity) column pair the code pushes. -/
def qualifyingSamples (ev : SelectEvent) (activeChromData : Option ChromXY) :
    List Rat × List Rat :=
  match derivedRangeX ev, activeChromData with
  | some (minX, maxX), some c =>
      let ps := (c.x.zip c.y).filter fun p =>
        decide (minX ≤ p.1 / 60) && decide (p.1 / 60 ≤ maxX)
      (ps.map fun p => p.1 / 60, ps.map Prod.snd)
  | _, _ => ([], [])

/-- Trapezoid accumulation loop of `calculateIntegration` (App.tsx lines
264-271), with the selected x-values converted from minutes back to
seconds inside each term. -/
def trapArea : List Rat → List Rat → Rat
  | x1 :: x2 :: xs, y1 :: y2 :: ys =>
      (y1 + y2) / 2 * (x2 * 60 - x1 * 60) + trapArea (x2 :: xs) (y2 :: ys)
  | _, _ => 0

/-- The integration-result slice of the state:
`integratedArea` and `integratedPoints`. -/
structure IntegState where
  integratedArea : Option Rat
  integratedPoints : Option ChromXY
deriving DecidableEq

/-- Peak integration, transcribing `calculateIntegration` (App.tsx lines
234-275): early return on an event with neither points nor range, early
return when fewer than two samples qualify, otherwise store the trapezoidal
area and the contributing samples. -/
def calculateIntegration (e : Option SelectEvent)
    (activeChromData : Option ChromXY) (st : IntegState) : IntegState :=
  match e with
  | none => st
  | some ev =>
      if ev.points = none ∧ ev.range = none then st
      else if (qualifyingSamples ev activeChromData).1.length < 2 then st
      else
        { integratedArea := some (trapArea
            (qualifyingSamples ev activeChromData).1
            (qualifyingSamples ev activeChromData).2),
          integratedPoints := some ⟨(qualifyingSamples ev activeChromData).1,
            (qualifyingSamples ev activeChromData).2⟩ }

/-- Spec-side composite trapezoidal sum
`area = Σ (y[i]+y[i+1])/2 * (xsec[i+1]-xsec[i])` over index pairs of the
qualifying samples, with x converted from minutes to seconds. -/
def specTrapSum (xs ys : List Rat) : Rat :=
  ∑ i ∈ Finset.range (xs.length - 1),
    (ys.getD i 0 + ys.getD (i + 1) 0) / 2 *
      (xs.getD (i + 1) 0 * 60 - xs.getD i 0 * 60)

/-- State of the app at the moment the TIC request of `handleFileUpload`
(App.tsx lines 119-152) is issued, after a successful upload returning
`filepath`: the handler clears the data fields and the scan index, sets
loading and clears the error before the upload request, then stores the
returned path; the synchronous head of `fetchTic` (lines 192-194) sets
loading and resets the chromatogram zoom before its own request. -/
def preTicStateUpload (s : AppState) (filepath : String) : AppState :=
  { s with selectedFile := filepath, ticData := none, chromData := none,
           spectrumData := none, scanList := [], currentScanIdx := -1,
           loading := true, error := none, chromXRange := none }

/-- State at the moment the TIC request of `loadDemoData` (App.tsx lines
154-166) is issued, after the demo-path request returned `path`: the handler
sets loading, clears the error, stores the path and clears the data fields
and scan index; the synchronous head of `fetchTic` then resets the
chromatogram zoom. -/
def preTicStateDemo (s : AppState) (path : String) : AppState :=
  { s with loading := true, error := none, selectedFile := path,
           ticData := none, chromData := none, spectrumData := none,
           scanList := [], currentScanIdx := -1, chromXRange := none }

/-- State at the moment the TIC request of `handleManualPathSubmit`
(App.tsx lines 168-175) is issued (`none` when the manual path is empty and
no fetch happens): the handler only stores the selected file, and the
synchronous head of `fetchTic` sets loading and resets the chromatogram
zoom — nothing else is cleared. -/
def preTicStateManual (s : AppState) : Option AppState :=
  if s.manualPath = "" then none
  else some { s with selectedFile := s.manualPath, loading := true,
                     chromXRange := none }

/-- Network event in a handler's request trace. -/
inductive NetEvent where
  | issue (op : String)
  | complete (op : String)
deriving DecidableEq

/-- Request trace of `handleFileUpload` on the all-success path (App.tsx
lines 119-152): the upload is awaited, then `await fetchTic`, then
`await fetchScanList` — each request completes before the next is issued. -/
def uploadTrace : List NetEvent :=
  [.issue "upload", .complete "upload",
   .issue "get-tic", .complete "get-tic",
   .issue "get-scan-list", .complete "get-scan-list"]

/-- Determined head of the request trace of `loadDemoData` (App.tsx lines
154-166): the demo-path request is awaited, but `fetchTic(path)` and
`fetchScanList(path)` are called without `await`, so each runs only up to
its own request before the handler continues — both requests are issued
before either can complete. -/
def demoTrace : List NetEvent :=
  [.issue "get-demo-path", .complete "get-demo-path",
   .issue "get-tic", .issue "get-scan-list"]

/-- Determined head of the request trace of `handleManualPathSubmit`
(App.tsx lines 168-175): `fetchTic` and `fetchScanList` are called without
`await`, so both requests are issued back to back. -/
def manualTrace : List NetEvent :=
  [.issue "get-tic", .issue "get-scan-list"]

/-- Determined head of the request trace of `handleFileSelect` in the
file-browser UI revision (App.tsx lines 981-988): `fetchTic` and
`fetchScanList` are called without `await`. -/
def fileSelectTrace : List NetEvent :=
  [.issue "get-tic", .issue "get-scan-list"]

/-- The sequencing contract of the claim: every issuance of the scan-list
request is preceded in the trace by a completion of the TIC request.
`seen` records whether a TIC completion has occurred so far. -/
def ticBeforeScanList : List NetEvent → Bool → Bool
  | [], _ => true
  | .issue op :: rest, seen =>
      if op = "get-scan-list" && !seen then false
      else ticBeforeScanList rest seen
  | .complete op :: rest, seen =>
      ticBeforeScanList rest (seen || op = "get-tic")

/-- Concrete scan list used by witnesses and counterexamples: retention
times 0 s, 100 s, 101 s. -/
def exScans : List Scan :=
  [⟨0, 0, 5, 150, 2⟩, ⟨1, 100, 6, 151, 3⟩, ⟨2, 101, 7, 152, 4⟩]

/-- Concrete MS1 spectrum at retention time 0 s (closest scan: index 0). -/
def exSpectrum : SpectrumResponse := ⟨[100, 200], [5, 8], 0, some [200]⟩

/-- Concrete MS1 spectrum at retention time 100 s, used as a fetched
response. -/
def exSpectrumB : SpectrumResponse := ⟨[110, 210], [4, 9], 100, none⟩

/-- Concrete MS2 spectrum with precursor 200. -/
def exMs2 : MS2Response := ⟨[50, 80], [1, 2], 0, 200⟩

/-- Concrete full view state: a file is selected, a spectrum at RT 0 s is
displayed with its consistent scan index 0, an MS2 view is open, and every
pane has a zoom window. -/
def exState : AppState :=
  { manualPath := "alt.mzML", selectedFile := "run.mzML",
    ticData := some ⟨[0, 100, 101], [5, 6, 7]⟩,
    chromData := some ⟨[0, 100], [1, 2]⟩,
    spectrumData := some exSpectrum, loading := false, error := none,
    scanList := exScans, currentScanIdx := 0,
    chromXRange := some (0, 1), msXRange := some (1, 2),
    ms2Data := some exMs2, ms2XRange := some (3, 4), ms2Loading := false }

/-- Concrete linear-ramp chromatogram from the spec's integration test:
samples (0 s, 0), (60 s, 10), (120 s, 0). -/
def rampChrom : ChromXY := ⟨[0, 60, 120], [0, 10, 0]⟩

/-- Selection event covering the whole ramp: box range 0–2 minutes. -/
def rampEv : SelectEvent := ⟨some (0, 2), none⟩

/-- Selection event carrying neither points nor a range (transient
mid-drag event). -/
def emptyEv : SelectEvent := ⟨none, none⟩

/-- Concrete previously stored integration result. -/
def exIntegState : IntegState := ⟨some 5, some ⟨[1, 2], [3, 4]⟩⟩

/-- Concrete MS2 spectrum returned by a successful drill-down fetch. -/
def exMs2B : MS2Response := ⟨[60, 90], [3, 4], 100, 210⟩

/-- Generalized closest-scan fold: the suffix of the reduce starting at
absolute index `k` with accumulator `prev`. -/
def closestAuxFold (scans : List Scan) (t : Rat) (k : Nat) (rest : List Scan)
    (prev : Nat) : Nat :=
  (List.enumFrom k rest).foldl
    (fun p q => if ratAbs (q.2.rt - t) < scanDist scans t p then q.1 else p)
    prev

lemma closestScanIdx_eq_aux (scans : List Scan) (t : Rat) :
    closestScanIdx scans t = closestAuxFold scans t 0 scans 0 := rfl

lemma getD_of_drop_eq_cons {α} [Inhabited α] :
    ∀ (l : List α) (k : Nat) {c : α} {r : List α},
      l.drop k = c :: r → l.getD k default = c ∧ l.drop (k + 1) = r := by
  intro l
  induction l with
  | nil => intro k c r h; simp at h
  | cons a l2 ih =>
      intro k c r h
      cases k with
      | zero =>
          simp only [List.drop] at h
          cases h
          exact ⟨rfl, rfl⟩
      | succ k =>
          simpa using ih k (by simpa using h)

lemma closestAuxFold_spec (scans : List Scan) (t : Rat) :
    ∀ (rest : List Scan) (k prev : Nat),
      scans.drop k = rest →
      prev < scans.length →
      (∀ j, j < k → scanDist scans t prev ≤ scanDist scans t j) →
      (∀ j, j < prev → scanDist scans t prev < scanDist scans t j) →
      closestAuxFold scans t k rest prev < scans.length ∧
      (∀ j, j < scans.length →
          scanDist scans t (closestAuxFold scans t k rest prev) ≤
            scanDist scans t j) ∧
      (∀ j, j < closestAuxFold scans t k rest prev →
          scanDist scans t (closestAuxFold scans t k rest prev) <
            scanDist scans t j) := by
  intro rest
  induction rest with
  | nil =>
      intro k prev hdrop hlt hmin hstrict
      have hlen := congrArg List.length hdrop
      simp only [List.length_drop, List.length_nil] at hlen
      have hk : scans.length ≤ k := by omega
      refine ⟨hlt, fun j hj => hmin j (lt_of_lt_of_le hj hk), hstrict⟩
  | cons c rest2 ih =>
      intro k prev hdrop hlt hmin hstrict
      obtain ⟨hgetD, hdrop2⟩ := getD_of_drop_eq_cons scans k hdrop
      have hk : k < scans.length := by
        have hlen := congrArg List.length hdrop
        simp only [List.length_drop, List.length_cons] at hlen
        omega
      have hdk : scanDist scans t k = ratAbs (c.rt - t) := by
        unfold scanDist
        rw [hgetD]
      have hstep : closestAuxFold scans t k (c :: rest2) prev =
          closestAuxFold scans t (k + 1) rest2
            (if ratAbs (c.rt - t) < scanDist scans t prev then k else prev) := rfl
      rw [hstep]
      by_cases hc : ratAbs (c.rt - t) < scanDist scans t prev
      · rw [if_pos hc]
        refine ih (k + 1) k hdrop2 hk ?_ ?_
        · intro j hj
          rcases Nat.lt_succ_iff_lt_or_eq.mp hj with hj | hj
          · exact le_of_lt (by rw [hdk]; exact lt_of_lt_of_le hc (hmin j hj))
          · subst hj; exact le_refl _
        · intro j hj
          rw [hdk]
          exact lt_of_lt_of_le hc (hmin j hj)
      · rw [if_neg hc]
        refine ih (k + 1) prev hdrop2 hlt ?_ hstrict
        intro j hj
        rcases Nat.lt_succ_iff_lt_or_eq.mp hj with hj | hj
        · exact hmin j hj
        · subst hj; rw [hdk]; exact le_of_not_lt hc

/-- Specification of the closest-scan reduce: the result is in bounds, has
minimal distance to the target among all indices, and every earlier index
has strictly larger distance (first index wins ties). -/
lemma closestScanIdx_spec (scans : List Scan) (t : Rat) (h : scans ≠ []) :
    closestScanIdx scans t < scans.length ∧
    (∀ j, j < scans.length →
        scanDist scans t (closestScanIdx scans t) ≤ scanDist scans t j) ∧
    (∀ j, j < closestScanIdx scans t →
        scanDist scans t (closestScanIdx scans t) < scanDist scans t j) := by
  rw [closestScanIdx_eq_aux]
  exact closestAuxFold_spec scans t scans 0 0 rfl
    (List.length_pos.mpr h) (by omega) (by omega)

lemma getStickData_foldl (hl : List Rat) :
    ∀ (l : List (Rat × Rat)) (acc : StickData),
      l.foldl
        (fun acc p =>
          if isHighlighted hl p.1 then
            { acc with hx := acc.hx ++ [some p.1, some p.1, none],
                       hy := acc.hy ++ [some 0, some p.2, none] }
          else
            { acc with x := acc.x ++ [some p.1, some p.1, none],
                       y := acc.y ++ [some 0, some p.2, none] }) acc =
      { x := acc.x ++ (l.filter fun p => !isHighlighted hl p.1).flatMap stickTripX,
        y := acc.y ++ (l.filter fun p => !isHighlighted hl p.1).flatMap stickTripY,
        hx := acc.hx ++ (l.filter fun p => isHighlighted hl p.1).flatMap stickTripX,
        hy := acc.hy ++ (l.filter fun p => isHighlighted hl p.1).flatMap stickTripY } := by
  intro l
  induction l with
  | nil => intro acc; simp
  | cons p l2 ih =>
      intro acc
      by_cases hp : isHighlighted hl p.1
      · simp [List.foldl_cons, hp, ih, List.filter_cons, stickTripX,
          stickTripY, List.append_assoc]
      · simp [List.foldl_cons, hp, ih, List.filter_cons, stickTripX,
          stickTripY, List.append_assoc]

lemma specTrapSum_cons (x1 x2 : Rat) (xt : List Rat) (y1 y2 : Rat)
    (yt : List Rat) :
    specTrapSum (x1 :: x2 :: xt) (y1 :: y2 :: yt) =
      (y1 + y2) / 2 * (x2 * 60 - x1 * 60) + specTrapSum (x2 :: xt) (y2 :: yt) := by
  unfold specTrapSum
  have hlen : (x1 :: x2 :: xt).length - 1 = xt.length + 1 := by simp
  have hlen2 : (x2 :: xt).length - 1 = xt.length := by simp
  rw [hlen, hlen2, Finset.sum_range_succ']
  simp only [List.getD_cons_succ, List.getD_cons_zero]
  exact add_comm _ _

lemma trapArea_eq_specTrapSum :
    ∀ (xs ys : List Rat), xs.length = ys.length →
      trapArea xs ys = specTrapSum xs ys
  | [], _, _ => by simp [trapArea, specTrapSum]
  | [_], _, _ => by simp [trapArea, specTrapSum]
  | _ :: _ :: _, [], h => by simp at h
  | _ :: _ :: _, [_], h => by simp at h
  | x1 :: x2 :: xt, y1 :: y2 :: yt, h => by
      rw [trapArea, specTrapSum_cons,
        trapArea_eq_specTrapSum (x2 :: xt) (y2 :: yt) (by simpa using h)]
termination_by xs _ _ => xs.length

lemma qualifyingSamples_length (ev : SelectEvent) (c : Option ChromXY) :
    (qualifyingSamples ev c).1.length = (qualifyingSamples ev c).2.length := by
  unfold qualifyingSamples
  rcases derivedRangeX ev with _ | ⟨minX, maxX⟩ <;> rcases c with _ | c <;>
    simp [List.length_map]

lemma qualifyingSamples_of_empty_event (c : Option ChromXY) :
    qualifyingSamples ⟨none, none⟩ c = ([], []) := by
  unfold qualifyingSamples derivedRangeX
  rcases c with _ | c <;> simp

/-- C1 (counterexample): on the demo-load path, at the moment the TIC request
is issued, the MS2 fragment spectrum and the MS1/MS2 zoom windows still hold
their old values, contradicting the claim that selecting a new file clears
the fragment spectrum and sets all three zoom windows to null before any
fetch. -/
theorem c1_counterexample :
    ¬ ((preTicStateDemo exState "demo.mzML").ms2Data = none ∧
       (preTicStateDemo exState "demo.mzML").msXRange = none ∧
       (preTicStateDemo exState "demo.mzML").ms2XRange = none) := by
  decide

/-- C1 (amended): before the TIC request of the upload and demo paths the
TIC data, extracted chromatogram, MS1 spectrum and scan list are cleared,
the scan index is set to -1 and the chromatogram zoom window is reset, while
the MS2 fragment spectrum and the MS1/MS2 zoom windows keep their prior
values; the manual-path selection issues its fetches after storing only the
selected file, the loading flag and the chromatogram zoom reset, clearing
nothing else. -/
theorem c1_new_file_partial_reset (s : AppState) (fp : String)
    (_hfp : fp ≠ "") (hmp : s.manualPath ≠ "") :
    ((preTicStateUpload s fp).ticData = none ∧
     (preTicStateUpload s fp).chromData = none ∧
     (preTicStateUpload s fp).spectrumData = none ∧
     (preTicStateUpload s fp).scanList = [] ∧
     (preTicStateUpload s fp).currentScanIdx = -1 ∧
     (preTicStateUpload s fp).chromXRange = none ∧
     (preTicStateUpload s fp).ms2Data = s.ms2Data ∧
     (preTicStateUpload s fp).msXRange = s.msXRange ∧
     (preTicStateUpload s fp).ms2XRange = s.ms2XRange) ∧
    ((preTicStateDemo s fp).ticData = none ∧
     (preTicStateDemo s fp).chromData = none ∧
     (preTicStateDemo s fp).spectrumData = none ∧
     (preTicStateDemo s fp).scanList = [] ∧
     (preTicStateDemo s fp).currentScanIdx = -1 ∧
     (preTicStateDemo s fp).chromXRange = none ∧
     (preTicStateDemo s fp).ms2Data = s.ms2Data ∧
     (preTicStateDemo s fp).msXRange = s.msXRange ∧
     (preTicStateDemo s fp).ms2XRange = s.ms2XRange) ∧
    preTicStateManual s =
      some { s with selectedFile := s.manualPath, loading := true,
                    chromXRange := none } := by
  refine ⟨⟨rfl, rfl, rfl, rfl, rfl, rfl, rfl, rfl, rfl⟩,
          ⟨rfl, rfl, rfl, rfl, rfl, rfl, rfl, rfl, rfl⟩, ?_⟩
  unfold preTicStateManual
  rw [if_neg hmp]

/-- C1 (witness): the amended reset property at a concrete fully populated
state and a concrete non-empty file path. -/
theorem c1_new_file_partial_reset_witness :
    ("new.mzML" ≠ "" ∧ exState.manualPath ≠ "") ∧
    (((preTicStateUpload exState "new.mzML").ticData = none ∧
      (preTicStateUpload exState "new.mzML").chromData = none ∧
      (preTicStateUpload exState "new.mzML").spectrumData = none ∧
      (preTicStateUpload exState "new.mzML").scanList = [] ∧
      (preTicStateUpload exState "new.mzML").currentScanIdx = -1 ∧
      (preTicStateUpload exState "new.mzML").chromXRange = none ∧
      (preTicStateUpload exState "new.mzML").ms2Data = exState.ms2Data ∧
      (preTicStateUpload exState "new.mzML").msXRange = exState.msXRange ∧
      (preTicStateUpload exState "new.mzML").ms2XRange = exState.ms2XRange) ∧
     ((preTicStateDemo exState "new.mzML").ticData = none ∧
      (preTicStateDemo exState "new.mzML").chromData = none ∧
      (preTicStateDemo exState "new.mzML").spectrumData = none ∧
      (preTicStateDemo exState "new.mzML").scanList = [] ∧
      (preTicStateDemo exState "new.mzML").currentScanIdx = -1 ∧
      (preTicStateDemo exState "new.mzML").chromXRange = none ∧
      (preTicStateDemo exState "new.mzML").ms2Data = exState.ms2Data ∧
      (preTicStateDemo exState "new.mzML").msXRange = exState.msXRange ∧
      (preTicStateDemo exState "new.mzML").ms2XRange = exState.ms2XRange) ∧
     preTicStateManual exState =
       some { exState with selectedFile := exState.manualPath,
                           loading := true, chromXRange := none }) :=
  ⟨⟨by decide, by decide⟩,
   c1_new_file_partial_reset exState "new.mzML" (by decide) (by decide)⟩

/-- C2 (counterexample): a successful MS1 spectrum fetch leaves the MS2
pane's zoom window holding its old value instead of resetting it to null. -/
theorem c2_counterexample :
    ¬ (fetchSpectrum exState (FetchOutcome.success exSpectrumB)).ms2XRange
        = none := by
  decide

/-- C2 (amended): on a successful MS1 spectrum fetch the new spectrum is
stored, the MS2 fragment spectrum is cleared, the MS1 pane's zoom window is
reset to null while the MS2 pane's zoom window keeps its prior value, and
when the scan list is non-empty the closest-scan resolution is re-run on the
fetched spectrum's retention time to update the current scan index. -/
theorem c2_spectrum_fetch_success (s : AppState) (data : SpectrumResponse)
    (h : s.selectedFile ≠ "") :
    (fetchSpectrum s (.success data)).spectrumData = some data ∧
    (fetchSpectrum s (.success data)).ms2Data = none ∧
    (fetchSpectrum s (.success data)).msXRange = none ∧
    (fetchSpectrum s (.success data)).ms2XRange = s.ms2XRange ∧
    (s.scanList ≠ [] →
      (fetchSpectrum s (.success data)).currentScanIdx =
        (closestScanIdx s.scanList data.rt : Int)) ∧
    (s.scanList = [] →
      (fetchSpectrum s (.success data)).currentScanIdx = s.currentScanIdx) := by
  unfold fetchSpectrum
  by_cases hs : s.scanList = [] <;> simp [hs, h]

/-- C2 (witness): the amended fetch-success property at the concrete state
and a concrete fetched spectrum. -/
theorem c2_spectrum_fetch_success_witness :
    exState.selectedFile ≠ "" ∧
    ((fetchSpectrum exState (.success exSpectrumB)).spectrumData
        = some exSpectrumB ∧
     (fetchSpectrum exState (.success exSpectrumB)).ms2Data = none ∧
     (fetchSpectrum exState (.success exSpectrumB)).msXRange = none ∧
     (fetchSpectrum exState (.success exSpectrumB)).ms2XRange
        = exState.ms2XRange ∧
     (exState.scanList ≠ [] →
       (fetchSpectrum exState (.success exSpectrumB)).currentScanIdx =
         (closestScanIdx exState.scanList exSpectrumB.rt : Int)) ∧
     (exState.scanList = [] →
       (fetchSpectrum exState (.success exSpectrumB)).currentScanIdx
          = exState.currentScanIdx)) :=
  ⟨by decide, c2_spectrum_fetch_success exState exSpectrumB (by decide)⟩

/-- C3 (counterexample): a failed fetch issued through index navigation
leaves the eagerly set scan index (2) in place while the previously
displayed spectrum (retention time 0 s, closest scan 0) stays displayed, so
the index is stale relative to the displayed spectrum. -/
theorem c3_counterexample :
    (updateSpectrumByIndex exState 2
        (FetchOutcome.failure "Failed to fetch spectrum")).spectrumData
      = some exSpectrum ∧
    0 ≤ (updateSpectrumByIndex exState 2
        (FetchOutcome.failure "Failed to fetch spectrum")).currentScanIdx ∧
    (updateSpectrumByIndex exState 2
        (FetchOutcome.failure "Failed to fetch spectrum")).currentScanIdx ≠
      (closestScanIdx
        (updateSpectrumByIndex exState 2
          (FetchOutcome.failure "Failed to fetch spectrum")).scanList
        exSpectrum.rt : Int) := by
  decide

/-- C3 (amended): after every successful spectrum fetch with a non-empty
scan list, the current scan index equals the closest-scan resolution of the
fetched retention time, lies in [0, len-1], and has minimal distance to the
displayed spectrum's retention time; the stale-freedom part of the original
claim holds only for successful fetches, since index navigation sets the
index before the fetch resolves. -/
theorem c3_scan_index_after_success (s : AppState) (data : SpectrumResponse)
    (hf : s.selectedFile ≠ "") (hs : s.scanList ≠ []) :
    (fetchSpectrum s (.success data)).scanList = s.scanList ∧
    (fetchSpectrum s (.success data)).spectrumData = some data ∧
    (fetchSpectrum s (.success data)).currentScanIdx =
      (closestScanIdx s.scanList data.rt : Int) ∧
    0 ≤ (fetchSpectrum s (.success data)).currentScanIdx ∧
    (fetchSpectrum s (.success data)).currentScanIdx
        < (s.scanList.length : Int) ∧
    (∀ j, j < s.scanList.length →
      scanDist s.scanList data.rt (closestScanIdx s.scanList data.rt) ≤
        scanDist s.scanList data.rt j) := by
  obtain ⟨hlt, hmin, _⟩ := closestScanIdx_spec s.scanList data.rt hs
  unfold fetchSpectrum
  simp only [if_neg hf, hs, ne_eq, not_false_iff, if_true, if_pos]
  refine ⟨?_, ?_, ?_, ?_, ?_, hmin⟩ <;> simp [hs, Int.ofNat_lt, hlt]

/-- C3 (witness): the amended index property at the concrete state and a
fetched spectrum at retention time 100 s. -/
theorem c3_scan_index_after_success_witness :
    (exState.selectedFile ≠ "" ∧ exState.scanList ≠ []) ∧
    ((fetchSpectrum exState (.success exSpectrumB)).scanList
        = exState.scanList ∧
     (fetchSpectrum exState (.success exSpectrumB)).spectrumData
        = some exSpectrumB ∧
     (fetchSpectrum exState (.success exSpectrumB)).currentScanIdx =
       (closestScanIdx exState.scanList exSpectrumB.rt : Int) ∧
     0 ≤ (fetchSpectrum exState (.success exSpectrumB)).currentScanIdx ∧
     (fetchSpectrum exState (.success exSpectrumB)).currentScanIdx
        < (exState.scanList.length : Int) ∧
     (∀ j, j < exState.scanList.length →
       scanDist exState.scanList exSpectrumB.rt
           (closestScanIdx exState.scanList exSpectrumB.rt) ≤
         scanDist exState.scanList exSpectrumB.rt j)) :=
  ⟨⟨by decide, by decide⟩,
   c3_scan_index_after_success exState exSpectrumB (by decide) (by decide)⟩

/-- C4 (counterexample): the demo-load path issues the scan-list request
before the TIC request has completed, violating the claimed sequencing
contract. -/
theorem c4_counterexample : ticBeforeScanList demoTrace false = false := by
  decide

/-- C4 (amended): only the upload path awaits the TIC fetch before issuing
the scan-list fetch; the demo, manual-path and file-select paths issue the
scan-list request without waiting for the TIC request to complete, so on
those paths the two requests are in flight concurrently. -/
theorem c4_tic_ordering_upload_only :
    ticBeforeScanList uploadTrace false = true ∧
    ticBeforeScanList demoTrace false = false ∧
    ticBeforeScanList manualTrace false = false ∧
    ticBeforeScanList fileSelectTrace false = false := by
  decide

/-- C5: for a non-empty scan list the closest-scan reduce returns an
in-range index whose distance to the target retention time is minimal over
all indices, and every earlier index has strictly larger distance, so ties
keep the earliest index. -/
theorem c5_closest_scan_minimal (scans : List Scan) (t : Rat)
    (h : scans ≠ []) :
    closestScanIdx scans t < scans.length ∧
    (∀ j, j < scans.length →
        scanDist scans t (closestScanIdx scans t) ≤ scanDist scans t j) ∧
    (∀ j, j < closestScanIdx scans t →
        scanDist scans t (closestScanIdx scans t) < scanDist scans t j) :=
  closestScanIdx_spec scans t h

/-- C5 (witness): the minimality property at the concrete scan list with
target 100.5 s, a tie between scans at 100 s and 101 s resolved to the
earlier index 1. -/
theorem c5_closest_scan_minimal_witness :
    exScans ≠ [] ∧
    ((closestScanIdx exScans (201/2) < exScans.length ∧
      (∀ j, j < exScans.length →
          scanDist exScans (201/2) (closestScanIdx exScans (201/2)) ≤
            scanDist exScans (201/2) j) ∧
      (∀ j, j < closestScanIdx exScans (201/2) →
          scanDist exScans (201/2) (closestScanIdx exScans (201/2)) <
            scanDist exScans (201/2) j)) ∧
     closestScanIdx exScans (201/2) = 1) :=
  ⟨by decide, c5_closest_scan_minimal exScans (201/2) (by decide), by decide⟩

/-- C6: when at least two chromatogram samples qualify for the derived
selection range, the integration stores the composite trapezoidal sum over
consecutive qualifying samples, with x converted back to seconds, together
with the qualifying (minutes, intensity) points. -/
theorem c6_integration_trapezoid (ev : SelectEvent) (c : ChromXY)
    (st : IntegState)
    (h2 : 2 ≤ (qualifyingSamples ev (some c)).1.length) :
    calculateIntegration (some ev) (some c) st =
      { integratedArea := some (specTrapSum (qualifyingSamples ev (some c)).1
          (qualifyingSamples ev (some c)).2),
        integratedPoints := some ⟨(qualifyingSamples ev (some c)).1,
          (qualifyingSamples ev (some c)).2⟩ } := by
  have hcalc : calculateIntegration (some ev) (some c) st =
      if ev.points = none ∧ ev.range = none then st
      else if (qualifyingSamples ev (some c)).1.length < 2 then st
      else
        { integratedArea := some (trapArea
            (qualifyingSamples ev (some c)).1
            (qualifyingSamples ev (some c)).2),
          integratedPoints := some ⟨(qualifyingSamples ev (some c)).1,
            (qualifyingSamples ev (some c)).2⟩ } := rfl
  by_cases hev : ev.points = none ∧ ev.range = none
  · exfalso
    have hevEq : ev = ⟨none, none⟩ := by
      cases ev
      simp only [SelectEvent.mk.injEq]
      exact ⟨hev.2, hev.1⟩
    rw [hevEq, qualifyingSamples_of_empty_event] at h2
    simp at h2
  · rw [hcalc, if_neg hev, if_neg (by omega),
      trapArea_eq_specTrapSum _ _ (qualifyingSamples_length ev (some c))]

/-- C6 (witness): the spec's linear-ramp test — samples (0 s, 0),
(60 s, 10), (120 s, 0) fully selected give stored area 600. -/
theorem c6_integration_trapezoid_witness :
    2 ≤ (qualifyingSamples rampEv (some rampChrom)).1.length ∧
    calculateIntegration (some rampEv) (some rampChrom) ⟨none, none⟩ =
      ⟨some 600, some ⟨[0, 1, 2], [0, 10, 0]⟩⟩ := by
  refine ⟨by decide, ?_⟩
  rw [c6_integration_trapezoid rampEv rampChrom ⟨none, none⟩ (by decide)]
  decide

/-- C7: an integration invocation for which fewer than two chromatogram
samples qualify — including one whose event carries neither points nor a
range — leaves the stored integration result unchanged. -/
theorem c7_integration_noop (e : Option SelectEvent) (c : Option ChromXY)
    (st : IntegState)
    (h : match e with
         | none => True
         | some ev => (qualifyingSamples ev c).1.length < 2) :
    calculateIntegration e c st = st := by
  cases e with
  | none => rfl
  | some ev =>
      have hcalc : calculateIntegration (some ev) c st =
          if ev.points = none ∧ ev.range = none then st
          else if (qualifyingSamples ev c).1.length < 2 then st
          else
            { integratedArea := some (trapArea
                (qualifyingSamples ev c).1 (qualifyingSamples ev c).2),
              integratedPoints := some ⟨(qualifyingSamples ev c).1,
                (qualifyingSamples ev c).2⟩ } := rfl
      by_cases hev : ev.points = none ∧ ev.range = none
      · rw [hcalc, if_pos hev]
      · rw [hcalc, if_neg hev, if_pos h]

/-- C7 (witness): a selection event carrying neither points nor a range
leaves a concrete previously stored integration result untouched. -/
theorem c7_integration_noop_witness :
    (match (some emptyEv : Option SelectEvent) with
     | none => True
     | some ev => (qualifyingSamples ev (some rampChrom)).1.length < 2) ∧
    calculateIntegration (some emptyEv) (some rampChrom) exIntegState =
      exIntegState :=
  ⟨by decide, c7_integration_noop (some emptyEv) (some rampChrom) exIntegState
    (by decide)⟩

/-- C8: the stick builder puts each aligned peak into exactly one of the two
channels — the highlighted one exactly when some highlight m/z is within
0.1 Da — and each peak contributes the three consecutive samples
(mz, 0), (mz, intensity), break, in input order. -/
theorem c8_stick_builder (mzs ints highlightMzs : List Rat)
    (_h : mzs.length = ints.length) :
    getStickData mzs ints highlightMzs =
      { x := ((mzs.zip ints).filter fun p =>
            !isHighlighted highlightMzs p.1).flatMap stickTripX,
        y := ((mzs.zip ints).filter fun p =>
            !isHighlighted highlightMzs p.1).flatMap stickTripY,
        hx := ((mzs.zip ints).filter fun p =>
            isHighlighted highlightMzs p.1).flatMap stickTripX,
        hy := ((mzs.zip ints).filter fun p =>
            isHighlighted highlightMzs p.1).flatMap stickTripY } := by
  unfold getStickData
  rw [getStickData_foldl]
  simp

/-- C8 (witness): the spec's example — mzs = [100, 200], ints = [5, 8],
highlight {200} — lands peak 100 in the normal channel and peak 200 in the
highlighted channel, with the claimed triplets. -/
theorem c8_stick_builder_witness :
    ([100, 200] : List Rat).length = ([5, 8] : List Rat).length ∧
    getStickData [100, 200] [5, 8] [200] =
      { x := ((([100, 200] : List Rat).zip [5, 8]).filter fun p =>
            !isHighlighted [200] p.1).flatMap stickTripX,
        y := ((([100, 200] : List Rat).zip [5, 8]).filter fun p =>
            !isHighlighted [200] p.1).flatMap stickTripY,
        hx := ((([100, 200] : List Rat).zip [5, 8]).filter fun p =>
            isHighlighted [200] p.1).flatMap stickTripX,
        hy := ((([100, 200] : List Rat).zip [5, 8]).filter fun p =>
            isHighlighted [200] p.1).flatMap stickTripY } ∧
    getStickData [100, 200] [5, 8] [200] =
      ⟨[some 100, some 100, none], [some 0, some 5, none],
       [some 200, some 200, none], [some 0, some 8, none]⟩ :=
  ⟨rfl, c8_stick_builder [100, 200] [5, 8] [200] rfl, by decide⟩

/-- C9: a failing MS2 fetch (non-2xx or rejected) changes nothing but the
MS2 loading flag — the stored MS2 spectrum, its zoom window and the error
banner keep their values — while a successful one stores the fetched
spectrum and resets the MS2 zoom window. -/
theorem c9_ms2_fetch (s : AppState) (h : s.selectedFile ≠ "") :
    (∀ d, fetchMs2Spectrum s (Ms2Outcome.success d) =
        { s with ms2Data := some d, ms2XRange := none, ms2Loading := false }) ∧
    fetchMs2Spectrum s Ms2Outcome.httpError = { s with ms2Loading := false } ∧
    (∀ msg, fetchMs2Spectrum s (Ms2Outcome.rejected msg) =
        { s with ms2Loading := false }) := by
  refine ⟨fun d => ?_, ?_, fun msg => ?_⟩ <;>
    simp only [fetchMs2Spectrum, if_neg h]

/-- C9 (witness): the MS2 fetch effects at the concrete state, for a non-2xx
response, a rejected request and a successful fetch. -/
theorem c9_ms2_fetch_witness :
    exState.selectedFile ≠ "" ∧
    fetchMs2Spectrum exState Ms2Outcome.httpError =
      { exState with ms2Loading := false } ∧
    fetchMs2Spectrum exState (Ms2Outcome.rejected "network down") =
      { exState with ms2Loading := false } ∧
    fetchMs2Spectrum exState (Ms2Outcome.success exMs2B) =
      { exState with ms2Data := some exMs2B, ms2XRange := none,
                     ms2Loading := false } :=
  ⟨by decide, (c9_ms2_fetch exState (by decide)).2.1,
   (c9_ms2_fetch exState (by decide)).2.2 "network down",
   (c9_ms2_fetch exState (by decide)).1 exMs2B⟩

/-- C10: with a non-empty scan list and no scan selected (index -1), both
arrow keys navigate to index 0 — neither is a no-op — and the navigation
issues a spectrum fetch for scan 0's retention time. -/
theorem c10_arrow_keys_from_unselected (scans : List Scan) (h : scans ≠ []) :
    handleKeyDownNav scans (-1) "ArrowRight" = some 0 ∧
    handleKeyDownNav scans (-1) "ArrowLeft" = some 0 ∧
    updateSpectrumIssuedRt scans 0 = some (scans.getD 0 default).rt := by
  have hl : 0 < scans.length := List.length_pos.mpr h
  have hl2 : (1 : Int) ≤ (scans.length : Int) := by exact_mod_cast hl
  refine ⟨?_, ?_, ?_⟩
  · unfold handleKeyDownNav
    rw [if_neg h, if_pos rfl]
    simp
    omega
  · unfold handleKeyDownNav
    rw [if_neg h, if_neg (by decide : ¬("ArrowLeft" = "ArrowRight")),
      if_pos rfl]
    have hmax : max 0 (-1 - 1) = (0 : Int) := by omega
    simp [hmax]
  · unfold updateSpectrumIssuedRt
    rw [if_neg (by omega : ¬((0 : Int) < 0 ∨ (scans.length : Int) ≤ 0))]
    rfl

/-- C10 (witness): both arrow keys from the unselected state on the concrete
scan list resolve to scan 0 and issue its fetch. -/
theorem c10_arrow_keys_from_unselected_witness :
    exScans ≠ [] ∧
    (handleKeyDownNav exScans (-1) "ArrowRight" = some 0 ∧
     handleKeyDownNav exScans (-1) "ArrowLeft" = some 0 ∧
     updateSpectrumIssuedRt exScans 0 = some (exScans.getD 0 default).rt) :=
  ⟨by decide, c10_arrow_keys_from_unselected exScans (by decide)⟩
